import Mathlib

/-!
Shallow embedding of the name/identifier resolution and request-assembly layer
of `src/tools/bc-blog/blog-posts.ts` (the `addBlogPostTool` and
`editBlogPostTool` handlers and their helper methods `getUserId`,
`getBlogContentId`, `getCategoryId`).

The remote baserCMS API is modelled by an environment `Env` of lookup oracles:
each oracle returns `Except Unit v` where `Except.error ()` models the remote
call throwing (network/auth/server error) and `Except.ok v` models the value
the awaited promise resolves to (`Option` wraps JavaScript `null`/`undefined`
results).  Every embedded operation returns its result paired with the list of
remote calls it issued, in program order, so that frame properties ("no remote
call", "read-only") are statable.

Optional string inputs are `Option String`; JavaScript truthiness of a string
(`!s` false) is "present and non-empty".
-/

namespace BaserMcp

/-- A user record as consumed by `getUserId` (`user?.id`). -/
structure User where
  id : Nat
deriving DecidableEq

/-- A blog-content candidate as consumed by `getBlogContentId`.  The source
reads only `.id`; `title` is carried so that title-match properties are
statable. -/
structure BlogContent where
  id : Nat
  title : Option String
deriving DecidableEq

/-- A blog-category candidate as consumed by `getCategoryId`
(`cat.name`, `cat.title`, `cat.id`); absent fields are `none`. -/
structure BlogCategory where
  id : Nat
  name : Option String
  title : Option String
deriving DecidableEq

/-- The full create payload built by `addBlogPostTool.handler` (lines 51-63).
`no` and `blog_category_id` may be JavaScript `null`, hence `Option Nat`. -/
structure BlogPostPayload where
  blog_content_id : Nat
  no : Option Nat
  name : String
  title : String
  content : String
  detail : String
  blog_category_id : Option Nat
  user_id : Nat
  status : Nat
  eye_catch : String
  posted : String
deriving DecidableEq

/-- The update object built field-by-field by `editBlogPostTool.handler`
(`const updateData: any = {}`).  A field left `none` is absent from the
object; `blog_category_id` can be present with value `null`
(`updateData.blog_category_id = await getCategoryId(...)`), hence
`Option (Option Nat)`. -/
structure UpdateData where
  title : Option String := none
  detail : Option String := none
  content : Option String := none
  status : Option Nat := none
  name : Option String := none
  eye_catch : Option String := none
  user_id : Option Nat := none
  blog_content_id : Option Nat := none
  blog_category_id : Option (Option Nat) := none
deriving DecidableEq

/-- One remote call issued against the baserCMS API. -/
inductive RemoteCall where
  | login
  | getUserByEmail (email : String)
  | getBlogContents (title : String)
  | getBlogCategories (blogContentId : Nat) (title : String)
  | addBlogPost (payload : BlogPostPayload)
  | editBlogPost (id : Nat) (data : UpdateData)
deriving DecidableEq

/-- The call is a read-only lookup/list call. -/
def RemoteCall.isLookup : RemoteCall → Bool
  | .getUserByEmail _ => true
  | .getBlogContents _ => true
  | .getBlogCategories _ _ => true
  | _ => false

/-- The call is a create/update/delete call. -/
def RemoteCall.isWrite : RemoteCall → Bool
  | .addBlogPost _ => true
  | .editBlogPost _ _ => true
  | _ => false

/-- The remote baserCMS API, as seen through the SDK functions the handlers
call.  `Except.error ()` models the call throwing. -/
structure Env where
  userLookup : String → Except Unit (Option User)
  blogContentsLookup : String → Except Unit (Option (List BlogContent))
  categoriesLookup : Nat → String → Except Unit (Option (List BlogCategory))

/-- JavaScript falsiness of an optional string argument:
`undefined` or the empty string. -/
def strFalsy : Option String → Bool
  | none => true
  | some s => s = ""

/-- `addBlogPostTool.getUserId` (lines 75-84): `if (!email) return 1;` then
`getUserByEmail`; `user?.id || 1` on success, `1` when the call throws. -/
def getUserId (env : Env) (email : Option String) : Nat × List RemoteCall :=
  match email with
  | none => (1, [])
  | some e =>
    if e = "" then (1, [])
    else
      ((match env.userLookup e with
        | .error _ => 1
        | .ok none => 1
        | .ok (some u) => if u.id = 0 then 1 else u.id),
       [RemoteCall.getUserByEmail e])

/-- `addBlogPostTool.getBlogContentId` (lines 92-104): `if (!blogContent)
return 1;` then `getBlogContents`; returns `blogContents[0].id` whenever the
returned value is a non-empty array, `1` otherwise or when the call throws. -/
def getBlogContentId (env : Env) (blogContent : Option String) :
    Nat × List RemoteCall :=
  match blogContent with
  | none => (1, [])
  | some b =>
    if b = "" then (1, [])
    else
      ((match env.blogContentsLookup b with
        | .error _ => 1
        | .ok none => 1
        | .ok (some []) => 1
        | .ok (some (c :: _)) => c.id),
       [RemoteCall.getBlogContents b])

/-- The predicate of line 119-121: `cat.name === category || cat.title ===
category`. -/
def categoryMatches (c : String) (cat : BlogCategory) : Bool :=
  cat.name == some c || cat.title == some c

/-- `addBlogPostTool.getCategoryId` (lines 113-128): `if (!category) return
null;` then `getBlogCategories`; `categories.find(...)` and
`foundCategory?.id || null` on success, `null` otherwise or when the call
throws. -/
def getCategoryId (env : Env) (blogContentId : Nat) (category : Option String) :
    Option Nat × List RemoteCall :=
  match category with
  | none => (none, [])
  | some c =>
    if c = "" then (none, [])
    else
      ((match env.categoriesLookup blogContentId c with
        | .error _ => none
        | .ok none => none
        | .ok (some cats) =>
          match cats.find? (categoryMatches c) with
          | none => none
          | some cat => if cat.id = 0 then none else some cat.id),
       [RemoteCall.getBlogCategories blogContentId c])

/-- Input of `addBlogPostTool.handler`; `none` models an absent optional
field (for `title`/`detail`, an input that failed to supply them). -/
structure AddBlogPostInput where
  title : Option String := none
  detail : Option String := none
  email : Option String := none
  category : Option String := none
  blog_content : Option String := none
deriving DecidableEq

/-- `addBlogPostTool.handler` (lines 31-68): validate `title`/`detail`
(JavaScript falsiness), create the API client, resolve user, blog content and
category ids, then call `addBlogPost` with the fully populated payload.
`now` stands for `new Date().toISOString().slice(0, 19).replace('T', ' ')`.
The `Except.ok` value is the payload submitted to the create call. -/
def addBlogPostHandler (env : Env) (now : String) (input : AddBlogPostInput) :
    Except String BlogPostPayload × List RemoteCall :=
  if strFalsy input.title then (.error "titleが指定されていません", [])
  else if strFalsy input.detail then (.error "detailが指定されていません", [])
  else
    let userRes := getUserId env input.email
    let bcRes := getBlogContentId env input.blog_content
    let catRes := getCategoryId env bcRes.1 input.category
    let payload : BlogPostPayload :=
      { blog_content_id := bcRes.1
        no := none
        name := ""
        title := input.title.getD ""
        content := ""
        detail := input.detail.getD ""
        blog_category_id := catRes.1
        user_id := userRes.1
        status := 0
        eye_catch := ""
        posted := now }
    (.ok payload,
     RemoteCall.login :: (userRes.2 ++ bcRes.2 ++ catRes.2 ++
       [RemoteCall.addBlogPost payload]))

/-- Input of `editBlogPostTool.handler`; each optional field is `none` when
absent from the caller's input. -/
structure EditBlogPostInput where
  id : Nat
  title : Option String := none
  detail : Option String := none
  content : Option String := none
  email : Option String := none
  category : Option String := none
  blog_content : Option String := none
  status : Option Nat := none
  name : Option String := none
  eye_catch : Option String := none
  blog_category_id : Option Nat := none
  user_id : Option Nat := none
  blog_content_id : Option Nat := none
deriving DecidableEq

/-- `editBlogPostTool.handler` (lines 361-446): validate `id` (JavaScript
falsiness of a number: `0`), create the API client, copy each defined basic
field into `updateData`, resolve `user_id` from `email` when not given
directly, always resolve and set `blog_content_id` (default `1`), resolve
`blog_category_id` from `category` when not given directly and the resolved
blog content id is truthy, then call `apiClient.edit`.  The `Except.ok`
value is the id and the update object submitted. -/
def editBlogPostHandler (env : Env) (input : EditBlogPostInput) :
    Except String (Nat × UpdateData) × List RemoteCall :=
  if input.id = 0 then (.error "idが指定されていません", [])
  else
    let userStep : Option Nat × List RemoteCall :=
      match input.user_id with
      | some uid => (some uid, [])
      | none =>
        if strFalsy input.email then (none, [])
        else
          let r := getUserId env input.email
          (some r.1, r.2)
    let bcStep : Nat × List RemoteCall :=
      match input.blog_content_id with
      | some b => (b, [])
      | none =>
        if strFalsy input.blog_content then (1, [])
        else getBlogContentId env input.blog_content
    let catStep : Option (Option Nat) × List RemoteCall :=
      match input.blog_category_id with
      | some cid => (some (some cid), [])
      | none =>
        if strFalsy input.category || bcStep.1 = 0 then (none, [])
        else
          let r := getCategoryId env bcStep.1 input.category
          (some r.1, r.2)
    let data : UpdateData :=
      { title := input.title
        detail := input.detail
        content := input.content
        status := input.status
        name := input.name
        eye_catch := input.eye_catch
        user_id := userStep.1
        blog_content_id := some bcStep.1
        blog_category_id := catStep.1 }
    (.ok (input.id, data),
     RemoteCall.login :: (userStep.2 ++ bcStep.2 ++ catStep.2 ++
       [RemoteCall.editBlogPost input.id data]))

/-- An environment whose every lookup throws. -/
def envThrow : Env :=
  { userLookup := fun _ => .error ()
    blogContentsLookup := fun _ => .error ()
    categoriesLookup := fun _ _ => .error () }

/-- Helper: `getUserId` when the remote user lookup throws. -/
theorem getUserId_of_error (env : Env) (e : String) (he : e ≠ "")
    (h : env.userLookup e = Except.error ()) :
    getUserId env (some e) = (1, [RemoteCall.getUserByEmail e]) := by
  simp [getUserId, he, h]

/-- Helper: `getUserId` when the remote user lookup resolves to no user. -/
theorem getUserId_of_notFound (env : Env) (e : String) (he : e ≠ "")
    (h : env.userLookup e = Except.ok none) :
    getUserId env (some e) = (1, [RemoteCall.getUserByEmail e]) := by
  simp [getUserId, he, h]

/-- Helper: `getUserId` when the remote user lookup finds a user with a
truthy id. -/
theorem getUserId_of_found (env : Env) (e : String) (u : User) (he : e ≠ "")
    (h : env.userLookup e = Except.ok (some u)) (hu : u.id ≠ 0) :
    getUserId env (some e) = (u.id, [RemoteCall.getUserByEmail e]) := by
  simp [getUserId, he, h, hu]

/-- C6: resolving an absent raw value issues no remote call and returns
immediately: the default `1` for the user and blog-content kinds, and the
`null` sentinel (not a numeric default) for the category kind. -/
theorem resolve_absent_noRemoteCall (env : Env) (bcid : Nat) :
    getUserId env none = (1, []) ∧
    getBlogContentId env none = (1, []) ∧
    getCategoryId env bcid none = (none, []) :=
  ⟨rfl, rfl, rfl⟩

/-- C2: for each entity kind, when the remote lookup call throws, the
resolution still returns successfully with the kind's configured default
(`1` for user and blog content, the `null` sentinel for category); the
lookup error never propagates. -/
theorem resolver_swallowsLookupError (env : Env) (e b c : String) (bcid : Nat)
    (he : e ≠ "") (hb : b ≠ "") (hc : c ≠ "")
    (hue : env.userLookup e = Except.error ())
    (hbe : env.blogContentsLookup b = Except.error ())
    (hce : env.categoriesLookup bcid c = Except.error ()) :
    getUserId env (some e) = (1, [RemoteCall.getUserByEmail e]) ∧
    getBlogContentId env (some b) = (1, [RemoteCall.getBlogContents b]) ∧
    getCategoryId env bcid (some c) =
      (none, [RemoteCall.getBlogCategories bcid c]) := by
  refine ⟨?_, ?_, ?_⟩
  · simp [getUserId, he, hue]
  · simp [getBlogContentId, hb, hbe]
  · simp [getCategoryId, hc, hce]

/-- Witness for C2 at a concrete always-throwing environment. -/
theorem resolver_swallowsLookupError_witness :
    getUserId envThrow (some "a@example.com") =
      (1, [RemoteCall.getUserByEmail "a@example.com"]) ∧
    getBlogContentId envThrow (some "News") =
      (1, [RemoteCall.getBlogContents "News"]) ∧
    getCategoryId envThrow 1 (some "cat") =
      (none, [RemoteCall.getBlogCategories 1 "cat"]) :=
  resolver_swallowsLookupError envThrow "a@example.com" "News" "cat" 1
    (by decide) (by decide) (by decide) rfl rfl rfl

/-- C9: every resolution operation is read-only: for every input, every
remote call in its trace is a lookup/list call, never a create, update or
delete call. -/
theorem resolver_readOnly (env : Env) (email bc cat : Option String)
    (bcid : Nat) :
    ((getUserId env email).2.all RemoteCall.isLookup = true) ∧
    ((getBlogContentId env bc).2.all RemoteCall.isLookup = true) ∧
    ((getCategoryId env bcid cat).2.all RemoteCall.isLookup = true) := by
  refine ⟨?_, ?_, ?_⟩
  · cases email with
    | none => rfl
    | some e =>
      by_cases he : e = "" <;> simp [getUserId, he, RemoteCall.isLookup]
  · cases bc with
    | none => rfl
    | some b =>
      by_cases hb : b = "" <;> simp [getBlogContentId, hb, RemoteCall.isLookup]
  · cases cat with
    | none => rfl
    | some c =>
      by_cases hc : c = "" <;> simp [getCategoryId, hc, RemoteCall.isLookup]

/-- C7: a create invocation with only the required fields `title` and
`detail` set produces a payload in which every optional field carries its
documented default: `blog_content_id = 1`, `no = null`, `name = ""`,
`content = ""`, `blog_category_id = null`, `user_id = 1`, `status = 0`,
`eye_catch = ""`, and `posted` the current timestamp. -/
theorem addHandler_defaults_fullPayload (env : Env) (now t d : String)
    (ht : t ≠ "") (hd : d ≠ "") :
    (addBlogPostHandler env now { title := some t, detail := some d }).1 =
      Except.ok
        { blog_content_id := 1, no := none, name := "", title := t,
          content := "", detail := d, blog_category_id := none,
          user_id := 1, status := 0, eye_catch := "", posted := now } := by
  simp [addBlogPostHandler, strFalsy, ht, hd, getUserId, getBlogContentId,
    getCategoryId]

/-- Witness for C7 at concrete required fields. -/
theorem addHandler_defaults_fullPayload_witness :
    (addBlogPostHandler envThrow "2026-01-01 00:00:00"
        { title := some "AI活用の新時代", detail := some "本文" }).1 =
      Except.ok
        { blog_content_id := 1, no := none, name := "",
          title := "AI活用の新時代", content := "", detail := "本文",
          blog_category_id := none, user_id := 1, status := 0,
          eye_catch := "", posted := "2026-01-01 00:00:00" } :=
  addHandler_defaults_fullPayload envThrow "2026-01-01 00:00:00"
    "AI活用の新時代" "本文" (by decide) (by decide)

/-- C8: an add invocation missing the required `title` or `detail` fails
with a caller-visible validation error and issues no remote call of any
kind, neither lookup nor write. -/
theorem addHandler_missingRequired_noRemoteCall (env : Env) (now : String)
    (input : AddBlogPostInput)
    (h : input.title = none ∨ input.detail = none) :
    ((addBlogPostHandler env now input).1 =
        Except.error "titleが指定されていません" ∨
      (addBlogPostHandler env now input).1 =
        Except.error "detailが指定されていません") ∧
    (addBlogPostHandler env now input).2 = [] := by
  rcases h with h | h
  · simp [addBlogPostHandler, h, strFalsy]
  · rcases ht : input.title with _ | t
    · simp [addBlogPostHandler, ht, strFalsy]
    · by_cases h0 : t = ""
      · simp [addBlogPostHandler, ht, h, h0, strFalsy]
      · simp [addBlogPostHandler, ht, h, h0, strFalsy]

/-- Witness for C8 at the empty input. -/
theorem addHandler_missingRequired_noRemoteCall_witness :
    ((addBlogPostHandler envThrow "2026-01-01 00:00:00"
        ({} : AddBlogPostInput)).1 =
        Except.error "titleが指定されていません" ∨
      (addBlogPostHandler envThrow "2026-01-01 00:00:00"
        ({} : AddBlogPostInput)).1 =
        Except.error "detailが指定されていません") ∧
    (addBlogPostHandler envThrow "2026-01-01 00:00:00"
      ({} : AddBlogPostInput)).2 = [] :=
  addHandler_missingRequired_noRemoteCall envThrow "2026-01-01 00:00:00"
    ({} : AddBlogPostInput) (Or.inl rfl)

/-- C1 counterexample: at the concrete edit input setting only `title`
(besides `id`), the assembled update payload is not exactly
`{title := some "t"}`: the handler also sets `blog_content_id := some 1`
(its default), and it adds no modification timestamp at all. -/
theorem editHandler_titleOnly_counterexample :
    (editBlogPostHandler envThrow { id := 1, title := some "t" }).1 =
      Except.ok (1, { title := some "t", blog_content_id := some 1 }) ∧
    ({ title := some "t", blog_content_id := some 1 } : UpdateData) ≠
      { title := some "t" } := by
  exact ⟨rfl, by decide⟩

/-- C1 amended: an edit invocation setting only `title` produces an update
payload containing exactly `title` with the caller's value and
`blog_content_id` set to the default `1`; no other fields and no
modification timestamp are added. -/
theorem editHandler_titleOnly_payload (env : Env) (i : Nat) (v : String)
    (hi : i ≠ 0) :
    (editBlogPostHandler env { id := i, title := some v }).1 =
      Except.ok (i, { title := some v, blog_content_id := some 1 }) := by
  simp [editBlogPostHandler, hi, strFalsy]

/-- Witness for the amended C1 at a concrete input. -/
theorem editHandler_titleOnly_payload_witness :
    (editBlogPostHandler envThrow { id := 2, title := some "v" }).1 =
      Except.ok (2, { title := some "v", blog_content_id := some 1 }) :=
  editHandler_titleOnly_payload envThrow 2 "v" (by decide)

/-- C3: a create invocation with valid `title` and `detail` whose category
lookup throws still executes the create call, with a payload carrying the
caller's `title` and `detail` and `blog_category_id = null`. -/
theorem addHandler_categoryThrow_stillCreates (env : Env) (now t d c : String)
    (email bc : Option String) (ht : t ≠ "") (hd : d ≠ "") (hc : c ≠ "")
    (hcat : ∀ bcid, env.categoriesLookup bcid c = Except.error ()) :
    ∃ payload : BlogPostPayload,
      (addBlogPostHandler env now
        { title := some t, detail := some d, email := email,
          category := some c, blog_content := bc }).1 =
        Except.ok payload ∧
      payload.title = t ∧ payload.detail = d ∧
      payload.blog_category_id = none ∧
      RemoteCall.addBlogPost payload ∈
        (addBlogPostHandler env now
          { title := some t, detail := some d, email := email,
            category := some c, blog_content := bc }).2 := by
  refine ⟨{ blog_content_id := (getBlogContentId env bc).1, no := none,
            name := "", title := t, content := "", detail := d,
            blog_category_id := none, user_id := (getUserId env email).1,
            status := 0, eye_catch := "", posted := now },
          ?_, rfl, rfl, rfl, ?_⟩
  · simp [addBlogPostHandler, strFalsy, ht, hd, getCategoryId, hc, hcat]
  · simp [addBlogPostHandler, strFalsy, ht, hd, getCategoryId, hc, hcat]

/-- Witness for C3 at a concrete throwing environment. -/
theorem addHandler_categoryThrow_stillCreates_witness :
    ∃ payload : BlogPostPayload,
      (addBlogPostHandler envThrow "2026-01-01 00:00:00"
        { title := some "AI活用の新時代", detail := some "本文",
          email := none, category := some "未分類", blog_content := none }).1 =
        Except.ok payload ∧
      payload.title = "AI活用の新時代" ∧ payload.detail = "本文" ∧
      payload.blog_category_id = none ∧
      RemoteCall.addBlogPost payload ∈
        (addBlogPostHandler envThrow "2026-01-01 00:00:00"
          { title := some "AI活用の新時代", detail := some "本文",
            email := none, category := some "未分類",
            blog_content := none }).2 :=
  addHandler_categoryThrow_stillCreates envThrow "2026-01-01 00:00:00"
    "AI活用の新時代" "本文" "未分類" none none
    (by decide) (by decide) (by decide) (fun _ => rfl)

/-- An environment whose blog-content lookup returns a single candidate
whose `title` differs from any queried raw value. -/
def envMismatch : Env :=
  { userLookup := fun _ => .error ()
    blogContentsLookup := fun _ =>
      Except.ok (some [{ id := 5, title := some "Other" }])
    categoriesLookup := fun _ _ => .error () }

/-- C4 counterexample: the blog-content lookup returns only a candidate
whose `title` is `"Other"`, different from the raw value `"News"`, yet the
resolution returns that candidate's id `5` as the match — the code takes
`blogContents[0].id` with no client-side title comparison. -/
theorem getBlogContentId_titleMismatch :
    envMismatch.blogContentsLookup "News" =
      Except.ok (some [{ id := 5, title := some "Other" }]) ∧
    (some "Other" : Option String) ≠ some "News" ∧
    getBlogContentId envMismatch (some "News") =
      (5, [RemoteCall.getBlogContents "News"]) := by
  exact ⟨rfl, by decide, rfl⟩

/-- C4 amended: for every non-empty candidate list returned by the
blog-content lookup, the resolution returns the id of the first candidate
in list order, regardless of whether its `title` equals the raw value. -/
theorem getBlogContentId_firstCandidate (env : Env) (b : String)
    (c : BlogContent) (rest : List BlogContent) (hb : b ≠ "")
    (h : env.blogContentsLookup b = Except.ok (some (c :: rest))) :
    getBlogContentId env (some b) = (c.id, [RemoteCall.getBlogContents b]) := by
  simp [getBlogContentId, hb, h]

/-- Witness for the amended C4 at the mismatching environment. -/
theorem getBlogContentId_firstCandidate_witness :
    getBlogContentId envMismatch (some "News") =
      (5, [RemoteCall.getBlogContents "News"]) :=
  getBlogContentId_firstCandidate envMismatch "News"
    { id := 5, title := some "Other" } [] (by decide) rfl

/-- An environment whose category lookup returns an earlier candidate
matching the raw value only on `title` and a later candidate matching it on
`name`. -/
def envTwoCats : Env :=
  { userLookup := fun _ => .error ()
    blogContentsLookup := fun _ => .error ()
    categoriesLookup := fun _ _ =>
      Except.ok (some
        [{ id := 2, name := some "x", title := some "cat" },
         { id := 3, name := some "cat", title := some "y" }]) }

/-- C5 counterexample: the candidate with id `3` matches the raw value
`"cat"` on the first configured match field `name`, but the resolution
returns id `2` — the earlier candidate matching only on the lower-priority
field `title` — because the code's `find` predicate is
`name === c || title === c` with no priority between fields. -/
theorem getCategoryId_noPriority_counterexample :
    envTwoCats.categoriesLookup 1 "cat" =
      Except.ok (some
        [{ id := 2, name := some "x", title := some "cat" },
         { id := 3, name := some "cat", title := some "y" }]) ∧
    ({ id := 3, name := some "cat", title := some "y" } :
        BlogCategory).name = some "cat" ∧
    ({ id := 2, name := some "x", title := some "cat" } :
        BlogCategory).name ≠ some "cat" ∧
    (getCategoryId envTwoCats 1 (some "cat")).1 = some 2 := by
  exact ⟨rfl, rfl, by decide, rfl⟩

/-- C5 amended: the category resolution returns the first candidate in list
order matching the raw value on either `name` or `title` (no priority
between the two fields); in particular, when no earlier candidate matches
either field, a candidate matching on `name` is returned even if later
candidates match on `title`. -/
theorem getCategoryId_firstMatch_eitherField (env : Env) (bcid : Nat)
    (c : String) (pre post : List BlogCategory) (cat : BlogCategory)
    (hc : c ≠ "") (hpre : ∀ x ∈ pre, categoryMatches c x = false)
    (hcat : categoryMatches c cat = true) (hid : cat.id ≠ 0)
    (h : env.categoriesLookup bcid c =
      Except.ok (some (pre ++ cat :: post))) :
    getCategoryId env bcid (some c) =
      (some cat.id, [RemoteCall.getBlogCategories bcid c]) := by
  have h1 : pre.find? (categoryMatches c) = none := by
    rw [List.find?_eq_none]
    intro x hx
    simp [hpre x hx]
  have h2 : (pre ++ cat :: post).find? (categoryMatches c) = some cat := by
    rw [List.find?_append, h1, List.find?_cons_of_pos _ hcat]
    rfl
  simp [getCategoryId, hc, h, h2, hid]

/-- An environment whose category lookup returns first a candidate matching
the raw value `"cat"` on `name` and then a candidate matching it on
`title`. -/
def envNameFirst : Env :=
  { userLookup := fun _ => .error ()
    blogContentsLookup := fun _ => .error ()
    categoriesLookup := fun _ _ =>
      Except.ok (some
        [{ id := 3, name := some "cat", title := some "y" },
         { id := 7, name := some "z", title := some "cat" }]) }

/-- Witness for the amended C5: the first matching candidate matches on
`name` while a later candidate matches on `title`. -/
theorem getCategoryId_firstMatch_eitherField_witness :
    getCategoryId envNameFirst 1 (some "cat") =
      (some 3, [RemoteCall.getBlogCategories 1 "cat"]) :=
  getCategoryId_firstMatch_eitherField envNameFirst 1 "cat" []
    [{ id := 7, name := some "z", title := some "cat" }]
    { id := 3, name := some "cat", title := some "y" }
    (by decide) (by simp) (by decide) (by decide) rfl

/-- The update object an edit invocation submits to `apiClient.edit`
(`none` when the handler throws before reaching the edit call). -/
def editSubmittedData (env : Env) (input : EditBlogPostInput) :
    Option UpdateData :=
  match (editBlogPostHandler env input).1 with
  | .error _ => none
  | .ok (_, d) => some d

/-- C10: an edit invocation supplying a (non-empty) `email` but no `user_id`
always puts a `user_id` field into the update payload: the resolved id when
the email lookup finds a user with a non-zero id, and the default `1` when
the lookup throws or finds no user — so a failed email lookup during edit
rewrites the post's author to user `1` instead of leaving it unchanged. -/
theorem editHandler_email_setsUserId (env : Env) (i : Nat) (e : String)
    (t d ct cat bc nm ec : Option String) (st : Option Nat)
    (bcatid bcid : Option Nat) (hi : i ≠ 0) (he : e ≠ "") :
    (editSubmittedData env
        { id := i, title := t, detail := d, content := ct, email := some e,
          category := cat, blog_content := bc, status := st, name := nm,
          eye_catch := ec, blog_category_id := bcatid, user_id := none,
          blog_content_id := bcid }).map UpdateData.user_id =
      some (some ((getUserId env (some e)).1)) ∧
    (env.userLookup e = Except.error () →
      (editSubmittedData env
        { id := i, title := t, detail := d, content := ct, email := some e,
          category := cat, blog_content := bc, status := st, name := nm,
          eye_catch := ec, blog_category_id := bcatid, user_id := none,
          blog_content_id := bcid }).map UpdateData.user_id =
        some (some 1)) ∧
    (env.userLookup e = Except.ok none →
      (editSubmittedData env
        { id := i, title := t, detail := d, content := ct, email := some e,
          category := cat, blog_content := bc, status := st, name := nm,
          eye_catch := ec, blog_category_id := bcatid, user_id := none,
          blog_content_id := bcid }).map UpdateData.user_id =
        some (some 1)) ∧
    (∀ u : User, env.userLookup e = Except.ok (some u) → u.id ≠ 0 →
      (editSubmittedData env
        { id := i, title := t, detail := d, content := ct, email := some e,
          category := cat, blog_content := bc, status := st, name := nm,
          eye_catch := ec, blog_category_id := bcatid, user_id := none,
          blog_content_id := bcid }).map UpdateData.user_id =
        some (some u.id)) := by
  have g1 : (editSubmittedData env
      { id := i, title := t, detail := d, content := ct, email := some e,
        category := cat, blog_content := bc, status := st, name := nm,
        eye_catch := ec, blog_category_id := bcatid, user_id := none,
        blog_content_id := bcid }).map UpdateData.user_id =
      some (some ((getUserId env (some e)).1)) := by
    simp [editSubmittedData, editBlogPostHandler, hi, strFalsy, he]
  refine ⟨g1, ?_, ?_, ?_⟩
  · intro h
    rw [g1, getUserId_of_error env e he h]
  · intro h
    rw [g1, getUserId_of_notFound env e he h]
  · intro u h hu
    rw [g1, getUserId_of_found env e u he h hu]

/-- Witness for C10: with an always-throwing lookup, the edit payload's
`user_id` is rewritten to the default `1`. -/
theorem editHandler_email_setsUserId_witness :
    (editSubmittedData envThrow
        { id := 1, email := some "a@example.com" }).map UpdateData.user_id =
      some (some 1) := by
  have h := editHandler_email_setsUserId envThrow 1 "a@example.com"
    none none none none none none none none none none (by decide) (by decide)
  exact h.2.1 rfl

end BaserMcp
